import Mathlib

/-!
Verification of the BradChat backend core: the token issuer
(`src/backend/src/lib/utils.js`), the database connector
(`src/backend/src/lib/db.js`), the message route stub
(`src/backend/src/routes/message.route.js`), and the account controller
signup flow.  Pure JavaScript functions are shallowly embedded as Lean
functions; external collaborators (jwt.sign, mongoose.connect) are
parameters; thrown exceptions are `Except` errors; the cookies set on the
response object are returned explicitly as a list.
-/

/-- The environment accessor `ENV` (from `src/backend/src/lib/env.js`):
each entry is `process.env.X`, which is either a string or undefined
(`none`).  Only the fields the verified components read are embedded. -/
structure Env where
  JWT_SECRET : Option String
  NODE_ENV : Option String
  MONGO_URI : Option String
deriving DecidableEq, Repr

/-- JavaScript falsiness for an optional string: `!x` is true exactly when
`x` is undefined or the empty string. -/
def jsFalsy : Option String → Bool
  | none => true
  | some s => s == ""

/-- A user object as consumed by `generateToken`: only `_id` is read, and
`user._id` may be undefined (`none`). -/
structure User where
  _id : Option String
deriving DecidableEq, Repr

/-- The JWT payload `{ UserId: user._id }` built by `generateToken`. -/
structure JwtPayload where
  UserId : Option String
deriving DecidableEq, Repr

/-- The options object `{ expiresIn: "7d" }` passed to `jwt.sign`. -/
structure SignOptions where
  expiresIn : String
deriving DecidableEq, Repr

/-- The options object passed to `res.cookie`. -/
structure CookieOptions where
  maxAge : Nat
  httpOnly : Bool
  secure : Bool
  sameSite : String
deriving DecidableEq, Repr

/-- A cookie attached to the response: name, value, options. -/
structure Cookie where
  name : String
  value : String
  options : CookieOptions
deriving DecidableEq, Repr

/-- The response object as `generateToken` uses it: it either exposes a
`cookie` method or (an invalid response object) does not.  Calling
`res.cookie` when the method is missing raises a TypeError. -/
structure Res where
  hasCookie : Bool
deriving DecidableEq, Repr

/-- JavaScript errors raised or propagated by the embedded functions. -/
inductive JsError where
  | error (msg : String)
  | typeError (msg : String)
  | signingError (msg : String)
deriving DecidableEq, Repr

/-- `generateToken` from `src/backend/src/lib/utils.js`:

```
const { JWT_SECRET } = ENV;
if (!JWT_SECRET) { throw new Error("JWT_SECRET is not configured"); }
const token = jwt.sign({ UserId: user._id }, ENV.JWT_SECRET, { expiresIn: "7d" });
res.cookie("jwt", token, { maxAge: 7*24*60*60*1000, httpOnly: true,
  secure: ENV.NODE_ENV === "devlopment" ? false : true, sameSite: "strict" });
return token;
```

`jwt.sign` is an external collaborator, passed as the parameter `sign`
(it may throw, modelled by `Except.error`).  The result is the returned
value (or the thrown error) paired with the list of cookies that were set
on the response. -/
def generateToken (ENV : Env)
    (sign : JwtPayload → String → SignOptions → Except JsError String)
    (user : User) (res : Res) : Except JsError String × List Cookie :=
  if jsFalsy ENV.JWT_SECRET then
    (Except.error (JsError.error "JWT_SECRET is not configured"), [])
  else
    match sign { UserId := user._id } (ENV.JWT_SECRET.getD "") { expiresIn := "7d" } with
    | Except.error e => (Except.error e, [])
    | Except.ok token =>
        if res.hasCookie then
          (Except.ok token,
            [{ name := "jwt", value := token,
               options := { maxAge := 7 * 24 * 60 * 60 * 1000,
                            httpOnly := true,
                            secure := if ENV.NODE_ENV == some "devlopment" then false else true,
                            sameSite := "strict" } }])
        else
          (Except.error (JsError.typeError "res.cookie is not a function"), [])

/-- A concrete environment with the misspelled non-secure NODE_ENV value,
used to exercise the theorems on concrete inputs. -/
def envDev : Env :=
  { JWT_SECRET := some "s", NODE_ENV := some "devlopment", MONGO_URI := some "mongodb://x" }

/-- A concrete production-like environment used to exercise the theorems. -/
def envProd : Env :=
  { JWT_SECRET := some "s", NODE_ENV := some "production", MONGO_URI := some "mongodb://x" }

/-- A signing collaborator that always succeeds with a fixed token. -/
def signOk : JwtPayload → String → SignOptions → Except JsError String :=
  fun _ _ _ => Except.ok "tok"

/-- The concrete cookie that `generateToken envDev signOk` sets. -/
def cookieDev : Cookie :=
  { name := "jwt", value := "tok",
    options := { maxAge := 7 * 24 * 60 * 60 * 1000, httpOnly := true,
                 secure := false, sameSite := "strict" } }

/-- The connection object returned by `mongoose.connect`: only
`conn.connection.host` is read. -/
structure Conn where
  host : String
deriving DecidableEq, Repr

/-- How a run of the database connector ends: either it returns normally
(having logged the connected host), or it terminates the whole process via
`process.exit` with the given exit code (having logged the error).  There
is no variant returning an error to the caller: the source has none. -/
inductive DBOutcome where
  | ok (logs : List String)
  | exit (code : Nat) (logs : List String)
deriving DecidableEq, Repr

/-- `connectDB` from `src/backend/src/lib/db.js`:

```
export const connectDB = async (mongoURI) => {
  try {
    const { MONGO_URI } = ENV
    if (!MONGO_URI) throw new Error("MONGO_URI is not set");
    const conn = await mongoose.connect(ENV.MONGO_URI)
    console.log("MongoDB connected:", conn.connection.host);
  } catch (error) {
    console.error("Error connecting to MongoDB:", error);
    process.exit(1); // Exit process with failure
  }
}
```

`mongoose.connect` is the external collaborator `connect` (it may fail).
The second component of the result counts how many times `connect` was
invoked during the run.  Note that the `mongoURI` parameter is accepted
but never read: the connection always uses `ENV.MONGO_URI`. -/
def connectDB (ENV : Env) (connect : String → Except String Conn)
    (mongoURI : Option String) : DBOutcome × Nat :=
  if jsFalsy ENV.MONGO_URI then
    (DBOutcome.exit 1 ["Error connecting to MongoDB: MONGO_URI is not set"], 0)
  else
    match connect (ENV.MONGO_URI.getD "") with
    | Except.ok conn => (DBOutcome.ok ["MongoDB connected: " ++ conn.host], 1)
    | Except.error e => (DBOutcome.exit 1 ["Error connecting to MongoDB: " ++ e], 1)

/-- An HTTP response as produced by the stub route handlers: Express
`res.send(string)` produces status 200 with the string body. -/
structure HttpResponse where
  status : Nat
  body : String
deriving DecidableEq, Repr

/-- An incoming HTTP request; the stub handler ignores all of it. -/
structure Request where
  method : String
  path : String
  reqBody : String
deriving DecidableEq, Repr

/-- The handler registered for GET /send in
`src/backend/src/routes/message.route.js`: `res.send('Send message
endpoint')`, which responds 200 with that literal body. -/
def sendMessageHandler (req : Request) : HttpResponse :=
  { status := 200, body := "Send message endpoint" }

/-- The message router from `src/backend/src/routes/message.route.js`: a
single route, GET /send, mapped to `sendMessageHandler`; dispatch on any
other method/path pair finds no handler. -/
def messageRouter (method path : String) (req : Request) : Option HttpResponse :=
  if method == "GET" && path == "/send" then some (sendMessageHandler req) else none

/-- Modelled from the spec: the signup request body, fullName, email and
password, each a text field (missing fields modelled as empty text).  The
account controller source (auth.controller.js) is absent from the provided
tree; only its route wiring is present. -/
structure SignupInput where
  fullName : String
  email : String
  password : String
deriving DecidableEq, Repr

/-- Modelled from the spec: a persisted User record — email, fullName,
password (stored only as a salted hash), profilePic (defaults to empty),
plus the storage-assigned identifier. -/
structure UserRecord where
  _id : String
  email : String
  fullName : String
  password : String
  profilePic : String
deriving DecidableEq, Repr

/-- Modelled from the spec: the 201 response body contains exactly the
identifier, fullName, email and profilePic — by construction it has no
password field and no hash field. -/
structure SignupBody where
  _id : String
  fullName : String
  email : String
  profilePic : String
deriving DecidableEq, Repr

/-- Modelled from the spec: the observable outcome of a signup request —
HTTP status, the error message of a 400 response, the JSON body of a 201
response, the persisted record, and the identifier the issued token is
bound to (none when no token is issued). -/
structure SignupResult where
  status : Nat
  message : Option String
  body : Option SignupBody
  savedUser : Option UserRecord
  tokenIssuedFor : Option String
deriving DecidableEq, Repr

/-- A 400 validation failure: no body, nothing saved, no token issued. -/
def err400 (msg : String) : SignupResult :=
  { status := 400, message := some msg, body := none, savedUser := none,
    tokenIssuedFor := none }

/-- Split a character list at every occurrence of the separator, keeping
empty pieces (the list analogue of splitting a string on one character). -/
def splitChar (c : Char) : List Char → List (List Char)
  | [] => [[]]
  | x :: xs =>
      let r := splitChar c xs
      if x == c then [] :: r
      else
        match r with
        | [] => [[x]]
        | y :: ys => (x :: y) :: ys

/-- Modelled from the spec: the basic local@domain.tld email shape — one @
separating a nonempty local part from a domain of at least two nonempty
dot-separated labels. -/
def validEmail (e : String) : Bool :=
  match splitChar '@' e.toList with
  | [loc, dom] =>
      (!loc.isEmpty) &&
        (let parts := splitChar '.' dom
         decide (2 ≤ parts.length) && parts.all (fun p => !p.isEmpty))
  | _ => false

/-- Modelled from the spec: a salted hash of the given cost factor (bcrypt
style).  The output carries a cost-and-salt prefix ahead of the digest, so
it is always longer than the plaintext and in particular never equals it. -/
def hashPassword (cost : Nat) (salt : String) (pw : String) : String :=
  "$2b$" ++ toString cost ++ "$" ++ salt ++ pw

/-- Modelled from the spec: the account controller signup flow
(auth.controller.js is absent from the provided source).  Checks run in the
spec order with the verbatim messages: empty fields, password length < 6,
email shape, duplicate email; otherwise the password is hashed with cost
factor 10, a record with empty profilePic is persisted, a token is issued
bound to the new record identifier, and a 201 body with exactly
identifier/fullName/email/profilePic is returned.  `newId` is the
storage-assigned identifier and `salt` the hashing salt. -/
def signup (db : List UserRecord) (newId salt : String) (inp : SignupInput) : SignupResult :=
  if inp.fullName = "" ∨ inp.email = "" ∨ inp.password = "" then
    err400 "All fields are required."
  else if inp.password.length < 6 then
    err400 "Password must be at least 6 characters long."
  else if validEmail inp.email = false then
    err400 "Invalid email format"
  else if db.any (fun u => u.email == inp.email) then
    err400 "Email already exists"
  else
    let hashed := hashPassword 10 salt inp.password
    let newUser : UserRecord :=
      { _id := newId, email := inp.email, fullName := inp.fullName,
        password := hashed, profilePic := "" }
    { status := 201, message := none,
      body := some { _id := newUser._id, fullName := newUser.fullName,
                     email := newUser.email, profilePic := newUser.profilePic },
      savedUser := some newUser, tokenIssuedFor := some newUser._id }

/-- Claim C1: for every invocation of generateToken, a cookie it sets has
secure = false exactly when NODE_ENV is the misspelled string "devlopment";
for every other value of NODE_ENV (including the correctly spelled
"development" and the unset case) secure = true. -/
theorem generateToken_secure_flag (ENV : Env)
    (sign : JwtPayload → String → SignOptions → Except JsError String)
    (user : User) (res : Res) (c : Cookie)
    (hc : c ∈ (generateToken ENV sign user res).2) :
    (c.options.secure = false ↔ ENV.NODE_ENV = some "devlopment") ∧
    (ENV.NODE_ENV ≠ some "devlopment" → c.options.secure = true) := by
  unfold generateToken at hc
  split at hc
  · simp at hc
  · split at hc
    · simp at hc
    · split at hc
      · simp only [List.mem_singleton] at hc
        subst hc
        by_cases h : ENV.NODE_ENV = some "devlopment" <;> simp [h]
      · simp at hc

/-- Witness for C1 at NODE_ENV = "devlopment" (secure is false there). -/
theorem generateToken_secure_flag_witness :
    cookieDev.options.secure = false ↔ envDev.NODE_ENV = some "devlopment" :=
  (generateToken_secure_flag envDev signOk { _id := some "u1" } { hasCookie := true }
    cookieDev (by decide)).1

/-- Claim C4: when the signing secret JWT_SECRET is absent from the
configuration, generateToken fails with the configuration error before
any signing attempt: the result is the same for every signing
collaborator, no token is returned, and no cookie is set. -/
theorem generateToken_missing_secret (ENV : Env)
    (sign : JwtPayload → String → SignOptions → Except JsError String)
    (user : User) (res : Res) (h : ENV.JWT_SECRET = none) :
    generateToken ENV sign user res =
      (Except.error (JsError.error "JWT_SECRET is not configured"), []) := by
  unfold generateToken
  rw [h]
  simp [jsFalsy]

/-- Witness for C4 with an unset secret and an always-succeeding signer. -/
theorem generateToken_missing_secret_witness :
    generateToken { JWT_SECRET := none, NODE_ENV := some "production", MONGO_URI := none }
        signOk { _id := some "u1" } { hasCookie := true } =
      (Except.error (JsError.error "JWT_SECRET is not configured"), []) :=
  generateToken_missing_secret
    { JWT_SECRET := none, NODE_ENV := some "production", MONGO_URI := none }
    signOk { _id := some "u1" } { hasCookie := true } rfl

/-- Claim C5: with the secret configured, (a) if the underlying signing
operation fails then the error propagates unchanged to the caller and no
cookie is set; (b) if signing succeeds but the response object lacks the
cookie-setting operation, the call fails with a TypeError at the cookie
call, and no cookie is set. -/
theorem generateToken_failure_modes (ENV : Env) (user : User) (res : Res)
    (hsec : jsFalsy ENV.JWT_SECRET = false) :
    (∀ e : JsError,
      generateToken ENV (fun _ _ _ => Except.error e) user res = (Except.error e, [])) ∧
    (∀ t : String, res.hasCookie = false →
      generateToken ENV (fun _ _ _ => Except.ok t) user res =
        (Except.error (JsError.typeError "res.cookie is not a function"), [])) := by
  constructor
  · intro e
    unfold generateToken
    rw [hsec]
    simp
  · intro t hres
    unfold generateToken
    rw [hsec]
    simp [hres]

/-- Witness for C5: signing failure propagates for a concrete environment. -/
theorem generateToken_failure_modes_witness :
    generateToken envProd (fun _ _ _ => Except.error (JsError.signingError "sign failed"))
        { _id := some "u4" } { hasCookie := true } =
      (Except.error (JsError.signingError "sign failed"), []) :=
  (generateToken_failure_modes envProd { _id := some "u4" } { hasCookie := true }
    (by decide)).1 (JsError.signingError "sign failed")

/-- Claim C6: every successful invocation of generateToken sets exactly one
cookie, named token or jwt, whose value is the signed token string, with
maxAge 604800000 (7 days in milliseconds), httpOnly true and sameSite
"strict"; the return value equals the cookie value. -/
theorem generateToken_success_cookie (ENV : Env)
    (sign : JwtPayload → String → SignOptions → Except JsError String)
    (user : User) (res : Res) (t : String)
    (h : (generateToken ENV sign user res).1 = Except.ok t) :
    ∃ c : Cookie, (generateToken ENV sign user res).2 = [c] ∧
      (c.name = "token" ∨ c.name = "jwt") ∧ c.value = t ∧
      c.options.maxAge = 604800000 ∧ c.options.httpOnly = true ∧
      c.options.sameSite = "strict" := by
  unfold generateToken at h ⊢
  by_cases hf : jsFalsy ENV.JWT_SECRET = true
  · rw [if_pos hf] at h
    simp at h
  · rw [if_neg hf] at h ⊢
    cases hs : sign { UserId := user._id } (ENV.JWT_SECRET.getD "") { expiresIn := "7d" } with
    | error e =>
      rw [hs] at h
      simp at h
    | ok tk =>
      rw [hs] at h
      by_cases hres : res.hasCookie = true
      · simp only [hres, if_true, Except.ok.injEq] at h
        subst h
        simp [hres]
      · simp [hres] at h

/-- Witness for C6 on a concrete successful invocation. -/
theorem generateToken_success_cookie_witness :
    ∃ c : Cookie,
      (generateToken envProd signOk { _id := some "u1" } { hasCookie := true }).2 = [c] ∧
      (c.name = "token" ∨ c.name = "jwt") ∧ c.value = "tok" ∧
      c.options.maxAge = 604800000 ∧ c.options.httpOnly = true ∧
      c.options.sameSite = "strict" :=
  generateToken_success_cookie envProd signOk { _id := some "u1" } { hasCookie := true }
    "tok" rfl

/-- Claim C10: generateToken performs no validation of the user argument:
with the secret configured and a user whose _id is absent (undefined), it
still calls the signer with payload UserId = undefined, sets the cookie,
and returns the signed token without raising an error. -/
theorem generateToken_no_id_validation (ENV : Env)
    (sign : JwtPayload → String → SignOptions → Except JsError String)
    (res : Res) (t : String)
    (hsec : jsFalsy ENV.JWT_SECRET = false)
    (hres : res.hasCookie = true)
    (hsign : sign { UserId := none } (ENV.JWT_SECRET.getD "") { expiresIn := "7d" } =
      Except.ok t) :
    (generateToken ENV sign { _id := none } res).1 = Except.ok t ∧
    ∃ c : Cookie, (generateToken ENV sign { _id := none } res).2 = [c] ∧ c.value = t := by
  unfold generateToken
  rw [hsec]
  simp only [Bool.false_eq_true, if_false]
  rw [hsign]
  simp [hres]

/-- Witness for C10: a user object with no _id still yields a token. -/
theorem generateToken_no_id_validation_witness :
    (generateToken envProd signOk { _id := none } { hasCookie := true }).1 =
        Except.ok "tok" ∧
      ∃ c : Cookie,
        (generateToken envProd signOk { _id := none } { hasCookie := true }).2 = [c] ∧
        c.value = "tok" :=
  generateToken_no_id_validation envProd signOk { hasCookie := true } "tok"
    (by decide) rfl rfl

/-- Claim C7: connectDB ignores its mongoURI argument — any two calls that
differ only in the argument behave identically; the connection attempt is
driven solely by the environment-configured MONGO_URI. -/
theorem connectDB_ignores_argument (ENV : Env) (connect : String → Except String Conn)
    (a b : Option String) :
    connectDB ENV connect a = connectDB ENV connect b := rfl

/-- Claim C8: whenever the configured MONGO_URI is absent or the connection
attempt fails, connectDB terminates the process with the non-zero exit
code 1 after logging the error; it never returns an error to its caller
(the only non-exit outcome is a normal return), and it never retries (the
connection is attempted at most once in every run). -/
theorem connectDB_fatal_on_failure (ENV : Env) (connect : String → Except String Conn)
    (mongoURI : Option String)
    (h : ENV.MONGO_URI = none ∨ ∃ e, connect (ENV.MONGO_URI.getD "") = Except.error e) :
    (∃ logs : List String,
      (connectDB ENV connect mongoURI).1 = DBOutcome.exit 1 logs ∧ logs ≠ []) ∧
    (connectDB ENV connect mongoURI).2 ≤ 1 := by
  unfold connectDB
  rcases h with hnone | ⟨e, herr⟩
  · rw [hnone]
    simp [jsFalsy]
  · by_cases hf : jsFalsy ENV.MONGO_URI = true
    · simp [hf]
    · simp only [hf, Bool.false_eq_true, if_false]
      rw [herr]
      simp

/-- Witness for C8: a failing connection attempt exits with code 1. -/
theorem connectDB_fatal_on_failure_witness :
    (∃ logs : List String,
      (connectDB envProd (fun _ => Except.error "refused") none).1 =
        DBOutcome.exit 1 logs ∧ logs ≠ []) ∧
    (connectDB envProd (fun _ => Except.error "refused") none).2 ≤ 1 :=
  connectDB_fatal_on_failure envProd (fun _ => Except.error "refused") none
    (Or.inr ⟨"refused", rfl⟩)

/-- Claim C9: every GET request dispatched to the message route at /send is
answered with status 200 and the fixed literal body "Send message
endpoint", regardless of the request content. -/
theorem messageRouter_send_stub (req : Request) :
    messageRouter "GET" "/send" req = some { status := 200, body := "Send message endpoint" } :=
  rfl

/-- The cost-10 salted hash never equals the plaintext: the prefixed
output is strictly longer than the input. -/
theorem hashPassword_ne_plaintext (salt pw : String) : hashPassword 10 salt pw ≠ pw := by
  intro he
  have hlen := congrArg String.length he
  rw [hashPassword] at hlen
  rw [String.length_append, String.length_append, String.length_append,
    String.length_append] at hlen
  have h4 : ("$2b$" : String).length = 4 := by decide
  have h2 : (toString (10 : Nat)).length = 2 := by decide
  have h1 : ("$" : String).length = 1 := by decide
  rw [h4, h2, h1] at hlen
  omega

/-- Claim C2: the signup validation checks run in a fixed order, each
failing with a 400 response carrying its verbatim message and issuing no
token: empty fields first ("All fields are required."), then password
length < 6 ("Password must be at least 6 characters long.", regardless of
the other fields), then the email shape ("Invalid email format"), then a
duplicate email ("Email already exists"). -/
theorem signup_validation_order (db : List UserRecord) (newId salt : String)
    (inp : SignupInput) :
    (inp.fullName = "" ∨ inp.email = "" ∨ inp.password = "" →
      signup db newId salt inp = err400 "All fields are required.") ∧
    (¬(inp.fullName = "" ∨ inp.email = "" ∨ inp.password = "") →
      inp.password.length < 6 →
      signup db newId salt inp = err400 "Password must be at least 6 characters long.") ∧
    (¬(inp.fullName = "" ∨ inp.email = "" ∨ inp.password = "") →
      ¬inp.password.length < 6 → validEmail inp.email = false →
      signup db newId salt inp = err400 "Invalid email format") ∧
    (¬(inp.fullName = "" ∨ inp.email = "" ∨ inp.password = "") →
      ¬inp.password.length < 6 → validEmail inp.email = true →
      db.any (fun u => u.email == inp.email) = true →
      signup db newId salt inp = err400 "Email already exists") := by
  refine ⟨fun h1 => ?_, fun h1 h2 => ?_, fun h1 h2 h3 => ?_, fun h1 h2 h3 h4 => ?_⟩
  · unfold signup
    rw [if_pos h1]
  · unfold signup
    rw [if_neg h1, if_pos h2]
  · unfold signup
    rw [if_neg h1, if_neg h2, if_pos h3]
  · unfold signup
    rw [if_neg h1, if_neg h2, if_neg (by simp [h3]), if_pos h4]

/-- Witness for C2: each of the four validation failures on a concrete
input, in order. -/
theorem signup_validation_order_witness :
    signup [] "id1" "aa" { fullName := "", email := "a@b.co", password := "longpw" } =
        err400 "All fields are required." ∧
    signup [] "id1" "aa" { fullName := "Ann", email := "bad", password := "abc" } =
        err400 "Password must be at least 6 characters long." ∧
    signup [] "id1" "aa" { fullName := "Ann", email := "bad", password := "longpw" } =
        err400 "Invalid email format" ∧
    signup [{ _id := "id0", email := "a@b.co", fullName := "Bo", password := "h",
              profilePic := "" }] "id1" "aa"
        { fullName := "Ann", email := "a@b.co", password := "longpw" } =
      err400 "Email already exists" :=
  ⟨(signup_validation_order [] "id1" "aa"
      { fullName := "", email := "a@b.co", password := "longpw" }).1 (Or.inl rfl),
   (signup_validation_order [] "id1" "aa"
      { fullName := "Ann", email := "bad", password := "abc" }).2.1
      (by decide) (by decide),
   (signup_validation_order [] "id1" "aa"
      { fullName := "Ann", email := "bad", password := "longpw" }).2.2.1
      (by decide) (by decide) (by decide),
   (signup_validation_order
      [{ _id := "id0", email := "a@b.co", fullName := "Bo", password := "h",
         profilePic := "" }] "id1" "aa"
      { fullName := "Ann", email := "a@b.co", password := "longpw" }).2.2.2
      (by decide) (by decide) (by decide) (by decide)⟩

/-- Claim C3: for valid, unique signup input, signup hashes the password
with the cost-10 salted hash, persists a record whose stored password
differs from the plaintext, issues a token bound to the new record's
identifier, and responds 201 with a body holding exactly the identifier,
fullName, email and profilePic — never the password or the hash. -/
theorem signup_success (db : List UserRecord) (newId salt : String) (inp : SignupInput)
    (h1 : ¬(inp.fullName = "" ∨ inp.email = "" ∨ inp.password = ""))
    (h2 : ¬inp.password.length < 6)
    (h3 : validEmail inp.email = true)
    (h4 : db.any (fun u => u.email == inp.email) = false) :
    ∃ u : UserRecord,
      signup db newId salt inp =
        { status := 201, message := none,
          body := some { _id := newId, fullName := inp.fullName, email := inp.email,
                         profilePic := "" },
          savedUser := some u, tokenIssuedFor := some u._id } ∧
      u._id = newId ∧
      u.password = hashPassword 10 salt inp.password ∧
      u.password ≠ inp.password := by
  refine ⟨{ _id := newId, email := inp.email, fullName := inp.fullName,
            password := hashPassword 10 salt inp.password, profilePic := "" },
    ?_, rfl, rfl, hashPassword_ne_plaintext salt inp.password⟩
  unfold signup
  rw [if_neg h1, if_neg h2, if_neg (by simp [h3]), if_neg (by simp [h4])]

/-- Witness for C3 on a concrete valid, unique input. -/
theorem signup_success_witness :
    ∃ u : UserRecord,
      signup [] "id1" "aa" { fullName := "Ann", email := "a@b.co", password := "longpw" } =
        { status := 201, message := none,
          body := some { _id := "id1", fullName := "Ann", email := "a@b.co",
                         profilePic := "" },
          savedUser := some u, tokenIssuedFor := some u._id } ∧
      u._id = "id1" ∧
      u.password = hashPassword 10 "aa" "longpw" ∧
      u.password ≠ "longpw" :=
  signup_success [] "id1" "aa" { fullName := "Ann", email := "a@b.co", password := "longpw" }
    (by decide) (by decide) (by decide) rfl
